import Mathlib

/-!
Verification of the auto-sidebar plugin (`autosidebar.py`).

The development embeds the plugin's two components:
* the visibility policy `internal_apply_sidebar_status`, a function from a
  window's state (views, folders, tab-bar flag, per-window settings map,
  per-project data map) and the global preferences map to an updated window;
* the deferral queue (`add_deferred`, `check_deferred`,
  `apply_sidebar_status`) that batches window re-evaluations.

Settings maps are association lists from string keys to booleans; `none`
models a missing (Python `None` / falsy) map, and an empty list models an
empty (falsy) dictionary.  The policy returns, besides the updated window, a
boolean recording whether the host mutator `set_sidebar_visible` was called,
so that frame conditions about untouched windows can be stated.
-/

/-- Association-list model of a settings dictionary with boolean values. -/
abbrev SMap := List (String × Bool)

/-- Python dictionary read with default: `d.get(k, dflt)`. -/
def smapGet (m : SMap) (k : String) (dflt : Bool) : Bool :=
  match m.lookup k with
  | some v => v
  | none => dflt

/-- Python dictionary write: `d[k] = v` (later writes shadow earlier ones). -/
def smapSet (m : SMap) (k : String) (v : Bool) : SMap :=
  (k, v) :: m

/-- Python truthiness of an optional dictionary: `None` and `{}` are falsy. -/
def smapTruthy : Option SMap → Bool
  | none => false
  | some m => !m.isEmpty

/-- Lookup of a key in an optional dictionary, `none` when map or key is absent. -/
def optLookup (o : Option SMap) (k : String) : Option Bool :=
  match o with
  | none => none
  | some m => m.lookup k

/-- Per-window override setting key. -/
def ENABLED_IN_WINDOW_SETTING : String := "sidebar_auto_enabled"

/-- Per-project override setting key (shares the name with the window key). -/
def ENABLED_IN_PROJECT_SETTING : String := "sidebar_auto_enabled"

/-- State of an editor window as read and written by the plugin:
`window.views()`, `window.folders()`, `window.get_tabs_visible()`,
`window.settings()`, `window.project_data()` and the sidebar flag set by
`window.set_sidebar_visible`. -/
structure Window where
  views : List Nat
  folders : List String
  tabs_visible : Bool
  settings : Option SMap
  project_data : Option SMap
  sidebar_visible : Bool
deriving DecidableEq

/-- Condition of the first early return:
`window.settings() and not window.settings().get(ENABLED_IN_WINDOW_SETTING, True)`. -/
def window_check_disabled (w : Window) : Bool :=
  smapTruthy w.settings && !(smapGet (w.settings.getD []) ENABLED_IN_WINDOW_SETTING true)

/-- Condition of the second early return:
`window.project_data() and not window.project_data().get(ENABLED_IN_PROJECT_SETTING, True)`. -/
def project_check_disabled (w : Window) : Bool :=
  smapTruthy w.project_data && !(smapGet (w.project_data.getD []) ENABLED_IN_PROJECT_SETTING true)

/-- Embedding of `internal_apply_sidebar_status(window)`.  The extra boolean
result records whether `window.set_sidebar_visible` was called (it is not on
the two early-return paths). -/
def internal_apply_sidebar_status (SETTINGS : SMap) (window : Window) : Window × Bool :=
  if window_check_disabled window then
    (window, false)
  else if project_check_disabled window then
    (window, false)
  else
    let sidebar_visible := false
    let open_due_views :=
      !window.tabs_visible || smapGet SETTINGS "sidebar_open_when_tabs_visible" false
    let sidebar_visible :=
      if open_due_views && decide (window.views.length > 1) then true else sidebar_visible
    let sidebar_visible :=
      if decide (window.folders.length > 0) then true else sidebar_visible
    ({ window with sidebar_visible := sidebar_visible }, true)

/-- Embedding of `add_deferred(window)`: append to the queue unless the
window is `None` (in which case only a warning is logged). -/
def add_deferred (window : Option Window) (q : List Window) : List Window :=
  match window with
  | none => q
  | some w => q ++ [w]

/-- Embedding of `check_deferred()`: `while len(DEFERRED_WINDOWS) > 0:
internal_apply_sidebar_status(DEFERRED_WINDOWS.pop())`.  Returns the final
queue together with the list of windows produced by the policy evaluations,
one entry per popped window, in evaluation order. -/
def check_deferred (SETTINGS : SMap) (q : List Window) (applied : List Window) :
    List Window × List Window :=
  if h : 0 < q.length then
    check_deferred SETTINGS q.dropLast
      (applied ++ [(internal_apply_sidebar_status SETTINGS (q.getLast (by
        intro hq; rw [hq] at h; simp at h))).1])
  else
    (q, applied)
termination_by q.length
decreasing_by simp [List.length_dropLast]; omega

/-- Embedding of `apply_sidebar_status(window)`: enqueue then flush. -/
def apply_sidebar_status (SETTINGS : SMap) (q : List Window) (window : Option Window) :
    List Window × List Window :=
  check_deferred SETTINGS (add_deferred window q) []

/-- Effect of `self.window.settings().set(ENABLED_IN_WINDOW_SETTING, v)`. -/
def set_window_setting (w : Window) (v : Bool) : Window :=
  { w with settings := some (smapSet (w.settings.getD []) ENABLED_IN_WINDOW_SETTING v) }

/-- Embedding of `AutoSidebarEnableInWindow.run`: set the override to true,
then `apply_sidebar_status(self.window)`. -/
def auto_sidebar_enable_in_window_run (SETTINGS : SMap) (q : List Window) (w : Window) :
    List Window × List Window :=
  apply_sidebar_status SETTINGS q (some (set_window_setting w true))

/-- Embedding of `AutoSidebarDisableInWindow.run`: set the override to false
and nothing else. -/
def auto_sidebar_disable_in_window_run (w : Window) : Window :=
  set_window_setting w false

/-! Helper lemmas shared by the claim theorems. -/

/-- On either early-return path the policy leaves the window untouched and
does not call the mutator. -/
lemma internal_early_return (S : SMap) (w : Window)
    (h : window_check_disabled w = true ∨ project_check_disabled w = true) :
    internal_apply_sidebar_status S w = (w, false) := by
  unfold internal_apply_sidebar_status
  rcases h with h | h
  · simp [h]
  · by_cases hw : window_check_disabled w <;> simp [hw, h]

/-- On the main path the policy sets the sidebar flag to the decision formula
and calls the mutator. -/
lemma internal_main_path (S : SMap) (w : Window)
    (hw : window_check_disabled w = false) (hp : project_check_disabled w = false) :
    internal_apply_sidebar_status S w =
      ({ w with sidebar_visible :=
          ((!w.tabs_visible || smapGet S "sidebar_open_when_tabs_visible" false)
              && decide (w.views.length > 1))
            || decide (w.folders.length > 0) }, true) := by
  unfold internal_apply_sidebar_status
  simp only [hw, hp, Bool.false_eq_true, if_false]
  by_cases hA : ((!w.tabs_visible || smapGet S "sidebar_open_when_tabs_visible" false)
      && decide (w.views.length > 1)) = true <;>
    by_cases hB : (decide (w.folders.length > 0)) = true <;>
      simp [hA, hB]

/-- Sample window: two views, no folders, tab bar hidden, no settings. -/
def sampleWindow1 : Window := ⟨[0, 1], [], false, none, none, false⟩

/-- Claim C1: with both override flags enabled, the decision applied to the
sidebar flag is `((not T or P) and V>1) or F>0`. -/
theorem policy_formula_when_enabled (S : SMap) (w : Window)
    (hw : window_check_disabled w = false) (hp : project_check_disabled w = false) :
    ((internal_apply_sidebar_status S w).1).sidebar_visible =
      (((!w.tabs_visible || smapGet S "sidebar_open_when_tabs_visible" false)
          && decide (w.views.length > 1))
        || decide (w.folders.length > 0)) := by
  rw [internal_main_path S w hw hp]

/-- Witness for C1 at a concrete enabled window with two views. -/
theorem policy_formula_when_enabled_witness :
    ((internal_apply_sidebar_status [] sampleWindow1).1).sidebar_visible = true :=
  (policy_formula_when_enabled [] sampleWindow1 (by decide) (by decide)).trans (by decide)

/-- Disabled window used as counterexample for C2: override false, five
views, three folders, sidebar currently visible. -/
def disabledVisibleWindow : Window :=
  ⟨[0, 1, 2, 3, 4], ["a", "b", "c"], false,
    some [(ENABLED_IN_WINDOW_SETTING, false)], none, true⟩

/-- Same disabled window but with the sidebar currently hidden. -/
def disabledHiddenWindow : Window :=
  ⟨[0, 1, 2, 3, 4], ["a", "b", "c"], false,
    some [(ENABLED_IN_WINDOW_SETTING, false)], none, false⟩

/-- Counterexample for C2: a window with `Ew=false`, `V=5`, `F=3` whose
sidebar is currently visible does NOT end hidden — the policy returns early
without touching the flag. -/
theorem disabled_window_not_hidden_cex :
    ¬ (((internal_apply_sidebar_status [] disabledVisibleWindow).1).sidebar_visible = false) := by
  decide

/-- Claim C2 (amended): when either override flag is false the policy returns
early, leaving the sidebar flag unchanged; in particular a window with
`Ew=false`, `V=5`, `F=3` whose sidebar is hidden stays hidden. -/
theorem disabled_leaves_flag_unchanged (S : SMap) (w : Window)
    (h : window_check_disabled w = true ∨ project_check_disabled w = true) :
    ((internal_apply_sidebar_status S w).1).sidebar_visible = w.sidebar_visible := by
  rw [internal_early_return S w h]

/-- Witness for the amended C2: the hidden disabled window stays hidden. -/
theorem disabled_leaves_flag_unchanged_witness :
    ((internal_apply_sidebar_status [] disabledHiddenWindow).1).sidebar_visible = false :=
  (disabled_leaves_flag_unchanged [] disabledHiddenWindow (Or.inl (by decide))).trans (by decide)

/-- Disabled window used for the C3 witness: project override false. -/
def projectDisabledWindow : Window :=
  ⟨[0], [], true, none, some [(ENABLED_IN_PROJECT_SETTING, false)], true⟩

/-- Claim C3: on either early-return path the window is returned exactly as
it was and the sidebar mutator is not called. -/
theorem disabled_early_return_no_mutation (S : SMap) (w : Window)
    (h : window_check_disabled w = true ∨ project_check_disabled w = true) :
    internal_apply_sidebar_status S w = (w, false) :=
  internal_early_return S w h

/-- Witness for C3 at a window disabled through the project override. -/
theorem disabled_early_return_no_mutation_witness :
    internal_apply_sidebar_status [] projectDisabledWindow = (projectDisabledWindow, false) :=
  disabled_early_return_no_mutation [] projectDisabledWindow (Or.inr (by decide))

/-- The flush loop always ends with an empty queue and performs exactly one
policy evaluation per queue entry. -/
lemma check_deferred_drains (S : SMap) :
    ∀ (n : ℕ) (q applied : List Window), q.length = n →
      (check_deferred S q applied).1 = [] ∧
        (check_deferred S q applied).2.length = applied.length + q.length := by
  intro n
  induction n with
  | zero =>
    intro q applied h
    have hq : q = [] := List.length_eq_zero.mp h
    subst hq
    rw [check_deferred]
    simp
  | succ n ih =>
    intro q applied h
    have hpos : 0 < q.length := by omega
    rw [check_deferred]
    rw [dif_pos hpos]
    have hlen : q.dropLast.length = n := by
      rw [List.length_dropLast]; omega
    rcases ih q.dropLast
        (applied ++ [(internal_apply_sidebar_status S (q.getLast (by
          intro hq; rw [hq] at hpos; simp at hpos))).1]) hlen with ⟨h1, h2⟩
    refine ⟨h1, ?_⟩
    rw [h2]
    simp [hlen]
    omega

/-- Claim C4: for any sequence of prior enqueues, flushing drains the queue
to length 0, evaluating the policy once per removed entry. -/
theorem flush_drains_queue (S : SMap) (ops : List (Option Window)) :
    (check_deferred S (ops.foldl (fun q o => add_deferred o q) []) []).1 = [] ∧
      (check_deferred S (ops.foldl (fun q o => add_deferred o q) []) []).2.length =
        (ops.foldl (fun q o => add_deferred o q) []).length := by
  rcases check_deferred_drains S (ops.foldl (fun q o => add_deferred o q) []).length
      (ops.foldl (fun q o => add_deferred o q) []) [] rfl with ⟨h1, h2⟩
  exact ⟨h1, by simpa using h2⟩

/-- Claim C5: enqueueing a missing window leaves the queue exactly as it was
(in particular its length is unchanged); the embedding is a total function,
so no exception can be raised. -/
theorem enqueue_none_noop (q : List Window) :
    add_deferred none q = q ∧ (add_deferred none q).length = q.length :=
  ⟨rfl, rfl⟩

/-- Window used in the C6 counterexample: two views, no folders, tab bar
visible, no overrides. -/
def tabsVisibleWindow : Window := ⟨[0, 1], [], true, none, none, false⟩

/-- Counterexample for C6: the global preference is NOT treated as true when
absent.  With the preference absent from the preferences map the sidebar
stays hidden; with the preference explicitly true it is shown. -/
theorem global_pref_absent_not_true_cex :
    ¬ (((internal_apply_sidebar_status [] tabsVisibleWindow).1).sidebar_visible =
        ((internal_apply_sidebar_status [("sidebar_open_when_tabs_visible", true)]
            tabsVisibleWindow).1).sidebar_visible) := by
  decide

/-- Claim C6 (amended): the per-window and per-project override flags are
treated as enabled (true) when absent from their maps, while the global
preference is treated as false when absent from the preferences map. -/
theorem settings_defaults (S : SMap) (w : Window)
    (hw : optLookup w.settings ENABLED_IN_WINDOW_SETTING = none)
    (hp : optLookup w.project_data ENABLED_IN_PROJECT_SETTING = none)
    (hP : S.lookup "sidebar_open_when_tabs_visible" = none) :
    window_check_disabled w = false ∧ project_check_disabled w = false ∧
      smapGet S "sidebar_open_when_tabs_visible" false = false := by
  refine ⟨?_, ?_, ?_⟩
  · unfold window_check_disabled smapTruthy smapGet
    cases hs : w.settings with
    | none => simp
    | some m =>
      have : m.lookup ENABLED_IN_WINDOW_SETTING = none := by
        unfold optLookup at hw
        rw [hs] at hw
        exact hw
      simp [this]
  · unfold project_check_disabled smapTruthy smapGet
    cases hs : w.project_data with
    | none => simp
    | some m =>
      have : m.lookup ENABLED_IN_PROJECT_SETTING = none := by
        unfold optLookup at hp
        rw [hs] at hp
        exact hp
      simp [this]
  · unfold smapGet
    rw [hP]

/-- Witness for the amended C6 at a window with no settings at all. -/
theorem settings_defaults_witness :
    window_check_disabled sampleWindow1 = false ∧
      project_check_disabled sampleWindow1 = false ∧
      smapGet [] "sidebar_open_when_tabs_visible" false = false :=
  settings_defaults [] sampleWindow1 (by decide) (by decide) (by decide)

/-- Claim C7: applying the policy twice to a window whose other state is
unchanged yields the same sidebar flag after each application. -/
theorem policy_idempotent (S : SMap) (w : Window) :
    ((internal_apply_sidebar_status S (internal_apply_sidebar_status S w).1).1).sidebar_visible =
      ((internal_apply_sidebar_status S w).1).sidebar_visible := by
  by_cases hw : window_check_disabled w = true
  · simp only [internal_early_return S w (Or.inl hw)]
  · by_cases hp : project_check_disabled w = true
    · simp only [internal_early_return S w (Or.inr hp)]
    · have hw' : window_check_disabled w = false := by
        revert hw; cases window_check_disabled w <;> simp
      have hp' : project_check_disabled w = false := by
        revert hp; cases project_check_disabled w <;> simp
      have hw2 : window_check_disabled { w with sidebar_visible :=
          ((!w.tabs_visible || smapGet S "sidebar_open_when_tabs_visible" false)
              && decide (w.views.length > 1)) || decide (w.folders.length > 0) } = false := hw'
      have hp2 : project_check_disabled { w with sidebar_visible :=
          ((!w.tabs_visible || smapGet S "sidebar_open_when_tabs_visible" false)
              && decide (w.views.length > 1)) || decide (w.folders.length > 0) } = false := hp'
      simp only [internal_main_path S w hw' hp', internal_main_path S _ hw2 hp2]

/-- Claim C8: enqueueing a non-null window appends it at the end of the
queue; no deduplication, so enqueueing twice yields two entries. -/
theorem enqueue_appends_no_dedup (w : Window) (q : List Window) :
    add_deferred (some w) q = q ++ [w] ∧
      add_deferred (some w) (add_deferred (some w) q) = q ++ [w, w] := by
  constructor
  · rfl
  · show (q ++ [w]) ++ [w] = q ++ [w, w]
    simp

/-- Flushing a one-element queue performs exactly the single evaluation. -/
lemma check_deferred_singleton (S : SMap) (w : Window) :
    check_deferred S [w] [] = ([], [(internal_apply_sidebar_status S w).1]) := by
  rw [check_deferred]
  rw [dif_pos (by simp)]
  rw [check_deferred]
  simp

/-- Claim C9: the disable command sets the per-window override to false and
leaves the sidebar flag untouched (no policy re-evaluation), while the
enable command sets it to true and re-applies the policy to the updated
window. -/
theorem commands_effects (S : SMap) (w : Window) :
    (auto_sidebar_disable_in_window_run w).sidebar_visible = w.sidebar_visible ∧
      smapGet ((auto_sidebar_disable_in_window_run w).settings.getD [])
          ENABLED_IN_WINDOW_SETTING true = false ∧
      smapGet ((set_window_setting w true).settings.getD [])
          ENABLED_IN_WINDOW_SETTING true = true ∧
      auto_sidebar_enable_in_window_run S [] w =
        ([], [(internal_apply_sidebar_status S (set_window_setting w true)).1]) := by
  refine ⟨rfl, ?_, ?_, ?_⟩
  · unfold auto_sidebar_disable_in_window_run set_window_setting smapSet smapGet
    simp [List.lookup]
  · unfold set_window_setting smapSet smapGet
    simp [List.lookup]
  · unfold auto_sidebar_enable_in_window_run apply_sidebar_status add_deferred
    exact check_deferred_singleton S (set_window_setting w true)

/-- Claim C10: an absent or empty project-data map skips the per-project
check, so for such a window only the per-window flag can cause an early
return — whenever the per-window check passes, the mutator is reached;
likewise an absent or empty per-window settings map skips the per-window
check. -/
theorem empty_maps_skip_checks (S : SMap) (w : Window) :
    (smapTruthy w.settings = false → window_check_disabled w = false) ∧
      (smapTruthy w.project_data = false → window_check_disabled w = false →
        (internal_apply_sidebar_status S w).2 = true) := by
  constructor
  · intro h
    unfold window_check_disabled
    rw [h]
    rfl
  · intro hpd hw
    have hp : project_check_disabled w = false := by
      unfold project_check_disabled
      rw [hpd]
      rfl
    rw [internal_main_path S w hw hp]

/-- Witness for C10 at a window with neither settings nor project data. -/
theorem empty_maps_skip_checks_witness :
    window_check_disabled sampleWindow1 = false ∧
      (internal_apply_sidebar_status [] sampleWindow1).2 = true :=
  ⟨(empty_maps_skip_checks [] sampleWindow1).1 (by decide),
    (empty_maps_skip_checks [] sampleWindow1).2 (by decide) (by decide)⟩
